import Mathlib

/-!
# Shallow embedding of `src/objects/num.rs`

This file embeds the numeric-marshalling module of the repository: the
conversion trait implementations produced by the `int_fits_c_long!`,
`int_fits_larger_int!` and `int_convert_u64_or_i64!` macro families, the
`f64`/`f32` conversions, the `PyFloat` accessors, and the helpers
`err_if_invalid_value` and `overflow_error`.

The build configuration modelled is `target_pointer_width = "64"` and not
Windows, so `c_long` is a 64-bit signed integer and the per-type strategy
table is: `i8 u8 i16 u16 i32 u32 i64 isize` via `int_fits_c_long!`,
`usize` via `int_fits_larger_int!(usize, u64)`, and `u64` via
`int_convert_u64_or_i64!`.

The foreign runtime (CPython's C API) is an external collaborator; it is
modelled at its documented boundary: integer objects carry an exact
arbitrary-precision integer, float objects carry the exact rational value of
their IEEE double (every finite double is a rational), and a third
constructor stands for objects with no numeric meaning.  The thread-local
error state and the ledger of new references handed to this module are made
explicit in a `PyState` record that every fallible foreign call threads
through.
-/

/-- The foreign exception kinds this module can raise or observe:
`OverflowError` from range checks and out-of-range accessor reads,
`TypeError` from accessors applied to non-numeric objects, and a
placeholder for fetching when nothing is pending (unreachable in the
guarded code paths). -/
inductive PyExc
  | overflowError
  | typeError
  | systemError
deriving DecidableEq

/-- Model of a foreign object as seen by `num.rs`: a `PyLong` holding an
arbitrary-precision integer (Python `bool` is a `PyLong` subtype and is
covered by `long`), a `PyFloat` holding the exact rational value of its
IEEE double, or a non-numeric object. -/
inductive PyObj
  | long (n : ℤ)
  | float (v : ℚ)
  | other
deriving DecidableEq

/-- The explicit state threaded through foreign calls:
`pending` is the thread-local error indicator (set by a failing foreign
call, cleared by fetch), and `unreleasedNewRefs` counts the new (owned)
references the runtime has handed to this module's code that the code has
not yet released.  The pre-operation refcount baseline corresponds to
`unreleasedNewRefs = 0`: every surplus unit here is a foreign object whose
refcount sits one above its baseline. -/
structure PyState where
  pending : Option PyExc
  unreleasedNewRefs : ℕ
deriving DecidableEq

/-- A state with no pending error and a clean reference ledger. -/
def PyState.clean : PyState := ⟨none, 0⟩

/-- Result type of fallible extraction, mirroring `PyResult<T> = Result<T, PyErr>`. -/
inductive PyResult (α : Type)
  | ok (a : α)
  | err (e : PyExc)
deriving DecidableEq

/-- `c_long` minimum on the modelled platform (64-bit, not Windows). -/
def cLongMin : ℤ := -(2 ^ 63)

/-- `c_long` maximum on the modelled platform. -/
def cLongMax : ℤ := 2 ^ 63 - 1

/-- Floor of a rational (`q.num / q.den` is integer floor division). -/
def ratFloor (q : ℚ) : ℤ := q.num / q.den

/-- Ceiling of a rational. -/
def ratCeil (q : ℚ) : ℤ := -ratFloor (-q)

/-- Truncation of a rational toward zero, the rounding used when the foreign
runtime converts a float to an integer (`nb_int` / `__trunc__`). -/
def ratTrunc (q : ℚ) : ℤ := if 0 ≤ q then ratFloor q else ratCeil q

/-- Two's-complement interpretation of an integer as a signed 64-bit value:
the meaning of a Rust `as c_long` cast on the modelled platform. -/
def wrapS64 (v : ℤ) : ℤ := (v + 2 ^ 63) % 2 ^ 64 - 2 ^ 63

/-- Interpretation of an integer's low 64 bits as an unsigned value:
the meaning of a Rust `as u64` cast. -/
def wrapU64 (v : ℤ) : ℤ := v % 2 ^ 64

/-- Modelled from the spec: `PyErr::occurred` (in `err.rs`, which is not part
of the packaged sources) peeks at the thread-local pending-error state
without clearing it. -/
def PyErr_occurred (s : PyState) : Bool := s.pending.isSome

/-- Modelled from the spec: `PyErr::fetch` (in `err.rs`, not part of the
packaged sources) reads and clears the thread-local pending error,
converting it into a native error value.  The code paths below only call it
after `PyErr_occurred` returned `true` or a foreign call returned null, so
the `none` placeholder branch is unreachable there. -/
def PyErr_fetch (s : PyState) : PyExc × PyState :=
  (match s.pending with
   | some e => e
   | none => PyExc.systemError,
   { s with pending := none })

/-- `overflow_error(py)`: a native error tagged with the foreign
`OverflowError` type (`PyErr::new_lazy_init(py.get_type::<exc::OverflowError>(), None)`). -/
def overflow_error : PyExc := PyExc.overflowError

/-- Foreign boundary: `PyLong_Check` — is the handle an integer object? -/
def PyLong_Check (o : PyObj) : Bool :=
  match o with
  | .long _ => true
  | _ => false

/-- Foreign boundary: `PyLong_AsLong`.  Reads a `c_long` from a numeric
object: integer objects are range-checked against the `c_long` range;
float objects are first coerced through `nb_int` (truncation toward zero)
and then range-checked; non-numeric objects raise `TypeError`.  The failure
sentinel is `-1`, ambiguous with the legitimate value `-1`. -/
def PyLong_AsLong (o : PyObj) (s : PyState) : ℤ × PyState :=
  match o with
  | .long n =>
      if cLongMin ≤ n ∧ n ≤ cLongMax then (n, s)
      else (-1, { s with pending := some PyExc.overflowError })
  | .float v =>
      let n := ratTrunc v
      if cLongMin ≤ n ∧ n ≤ cLongMax then (n, s)
      else (-1, { s with pending := some PyExc.overflowError })
  | .other => (-1, { s with pending := some PyExc.typeError })

/-- Foreign boundary: `PyLong_AsUnsignedLongLong`.  Reads a `c_ulonglong`
from an integer object; out-of-range values raise `OverflowError` and
non-integer objects raise `TypeError`, both returning the failure sentinel
`(unsigned long long)-1 = 2^64 - 1`. -/
def PyLong_AsUnsignedLongLong (o : PyObj) (s : PyState) : ℤ × PyState :=
  match o with
  | .long n =>
      if 0 ≤ n ∧ n < 2 ^ 64 then (n, s)
      else (2 ^ 64 - 1, { s with pending := some PyExc.overflowError })
  | _ => (2 ^ 64 - 1, { s with pending := some PyExc.typeError })

/-- Foreign boundary: `PyNumber_Long`, the generic numeric coercion.  On a
numeric object it returns a NEW integer-object reference (the ledger gains
one unit that the caller is responsible for releasing); on a non-numeric
object it returns null with `TypeError` pending. -/
def PyNumber_Long (o : PyObj) (s : PyState) : Option PyObj × PyState :=
  match o with
  | .long n => (some (.long n), { s with unreleasedNewRefs := s.unreleasedNewRefs + 1 })
  | .float v => (some (.long (ratTrunc v)), { s with unreleasedNewRefs := s.unreleasedNewRefs + 1 })
  | .other => (none, { s with pending := some PyExc.typeError })

/-- Foreign boundary: `PyFloat_AsDouble`.  Reads a double from a float
object (exactly, in this rational model), converts integer objects through
their float value, and raises `TypeError` on non-numeric objects with the
ambiguous failure sentinel `-1.0`. -/
def PyFloat_AsDouble (o : PyObj) (s : PyState) : ℚ × PyState :=
  match o with
  | .float v => (v, s)
  | .long n => ((n : ℚ), s)
  | .other => (-1, { s with pending := some PyExc.typeError })

/-- Foreign boundary: `PyLong_FromLong`.  Total: every `c_long` value has an
integer object; a null return could only signal memory exhaustion, which
the spec places outside this model. -/
def PyLong_FromLong (l : ℤ) : Option PyObj := some (.long (wrapS64 l))

/-- Foreign boundary: `PyLong_FromUnsignedLongLong`; total like
`PyLong_FromLong`. -/
def PyLong_FromUnsignedLongLong (u : ℤ) : Option PyObj := some (.long (wrapU64 u))

/-- Foreign boundary: `PyFloat_FromDouble`; total. -/
def PyFloat_FromDouble (q : ℚ) : Option PyObj := some (.float q)

/-- `PyPtr::from_owned_ptr_or_panic` (in `python.rs`, not part of the
packaged sources).  Modelled from the spec: takes a raw handle, panics if
null, otherwise wraps it with no refcount adjustment.  The junk value
returned on the `none` branch is never produced because the constructors
above are total; the panic branch's unreachability is what claim C7
states. -/
def from_owned_ptr_or_panic (p : Option PyObj) : PyObj :=
  match p with
  | some o => o
  | none => PyObj.other

/-- `num_traits::cast::cast::<c_long, T>`: a range-checked identity
conversion between integer types, `none` exactly when the value does not
fit in the target range `[lo, hi]`. -/
def num_traits_cast (lo hi v : ℤ) : Option ℤ :=
  if lo ≤ v ∧ v ≤ hi then some v else none

/-! ## The `int_fits_c_long!` macro -/

/-- `int_fits_c_long!($t)`, `ToPyObject::to_object`:
`PyPtr::from_owned_ptr_or_panic(ffi::PyLong_FromLong(*self as c_long))`. -/
def int_fits_c_long_to_object (v : ℤ) : PyObj :=
  from_owned_ptr_or_panic (PyLong_FromLong (wrapS64 v))

/-- `int_fits_c_long!($t)`, `pyobject_extract!`: read a `c_long`, propagate
the fetched error when the read value is the sentinel `-1` AND an error is
pending, then narrow with `cast::<c_long, $t>`, failing to narrow being
`overflow_error`.  The target type `$t` is represented by its range
`[lo, hi]`. -/
def int_fits_c_long_extract (lo hi : ℤ) (obj : PyObj) (s : PyState) :
    PyResult ℤ × PyState :=
  let p := PyLong_AsLong obj s
  if p.1 = -1 ∧ PyErr_occurred p.2 = true then
    let f := PyErr_fetch p.2
    (.err f.1, f.2)
  else
    match num_traits_cast lo hi p.1 with
    | some v => (.ok v, p.2)
    | none => (.err overflow_error, p.2)

/-! ## The `int_fits_larger_int!` macro -/

/-- `int_fits_larger_int!($t, $larger)`, `pyobject_extract!`: extract the
larger type, then narrow with `cast::<$larger, $t>`, failing to narrow
being `overflow_error`. -/
def int_fits_larger_int_extract
    (extractLarger : PyObj → PyState → PyResult ℤ × PyState)
    (lo hi : ℤ) (obj : PyObj) (s : PyState) : PyResult ℤ × PyState :=
  match extractLarger obj s with
  | (.ok val, s1) =>
      match num_traits_cast lo hi val with
      | some v => (.ok v, s1)
      | none => (.err overflow_error, s1)
  | (.err e, s1) => (.err e, s1)

/-! ## The `int_convert_u64_or_i64!` macro -/

/-- `err_if_invalid_value`: propagate the fetched error exactly when the
actual value equals the designated invalid (sentinel) value AND an error is
pending; otherwise the value, sentinel included, is legitimate. -/
def err_if_invalid_value (invalid actual : ℤ) (s : PyState) :
    PyResult ℤ × PyState :=
  if actual = invalid ∧ PyErr_occurred s = true then
    let f := PyErr_fetch s
    (.err f.1, f.2)
  else
    (.ok actual, s)

/-- `int_convert_u64_or_i64!($t, $from, $as)`, `ToPyObject::to_object`:
`PyPtr::from_owned_ptr_or_panic($pylong_from_ll_or_ull(*self))`. -/
def int_convert_u64_or_i64_to_object (pylong_from : ℤ → Option PyObj) (v : ℤ) : PyObj :=
  from_owned_ptr_or_panic (pylong_from v)

/-- `int_convert_u64_or_i64!($t, $from, $as)`, `FromPyObject::extract`:
if the handle is already an integer object, read it directly through the
64-bit accessor under the sentinel-plus-error check; otherwise coerce with
`PyNumber_Long` first, propagating the fetched error on a null return, and
read the coercion's result under the same check.  The new reference
returned by `PyNumber_Long` is not released anywhere in this function,
mirroring the source, which never decrefs `num`. -/
def int_convert_u64_or_i64_extract
    (pylong_as : PyObj → PyState → ℤ × PyState) (invalid : ℤ)
    (obj : PyObj) (s : PyState) : PyResult ℤ × PyState :=
  if PyLong_Check obj = true then
    let p := pylong_as obj s
    err_if_invalid_value invalid p.1 p.2
  else
    match PyNumber_Long obj s with
    | (none, s1) =>
        let f := PyErr_fetch s1
        (.err f.1, f.2)
    | (some num, s1) =>
        let p := pylong_as num s1
        err_if_invalid_value invalid p.1 p.2

/-! ## Per-type instantiations (64-bit, non-Windows strategy table) -/

/-- `!0` at type `u64`, the invalid-value sentinel of the 64-bit unsigned accessor. -/
def u64_invalid : ℤ := 2 ^ 64 - 1

def i8_to_object : ℤ → PyObj := int_fits_c_long_to_object
def u8_to_object : ℤ → PyObj := int_fits_c_long_to_object
def i16_to_object : ℤ → PyObj := int_fits_c_long_to_object
def u16_to_object : ℤ → PyObj := int_fits_c_long_to_object
def i32_to_object : ℤ → PyObj := int_fits_c_long_to_object
def u32_to_object : ℤ → PyObj := int_fits_c_long_to_object
def i64_to_object : ℤ → PyObj := int_fits_c_long_to_object
def isize_to_object : ℤ → PyObj := int_fits_c_long_to_object

/-- `int_convert_u64_or_i64!(u64, PyLong_FromUnsignedLongLong, PyLong_AsUnsignedLongLong)`. -/
def u64_to_object (v : ℤ) : PyObj :=
  int_convert_u64_or_i64_to_object PyLong_FromUnsignedLongLong v

/-- `int_fits_larger_int!(usize, u64)`: `(*self as u64).to_object(py)`. -/
def usize_to_object (v : ℤ) : PyObj := u64_to_object (wrapU64 v)

def i8_extract : PyObj → PyState → PyResult ℤ × PyState :=
  int_fits_c_long_extract (-(2 ^ 7)) (2 ^ 7 - 1)
def u8_extract : PyObj → PyState → PyResult ℤ × PyState :=
  int_fits_c_long_extract 0 (2 ^ 8 - 1)
def i16_extract : PyObj → PyState → PyResult ℤ × PyState :=
  int_fits_c_long_extract (-(2 ^ 15)) (2 ^ 15 - 1)
def u16_extract : PyObj → PyState → PyResult ℤ × PyState :=
  int_fits_c_long_extract 0 (2 ^ 16 - 1)
def i32_extract : PyObj → PyState → PyResult ℤ × PyState :=
  int_fits_c_long_extract (-(2 ^ 31)) (2 ^ 31 - 1)
def u32_extract : PyObj → PyState → PyResult ℤ × PyState :=
  int_fits_c_long_extract 0 (2 ^ 32 - 1)
def i64_extract : PyObj → PyState → PyResult ℤ × PyState :=
  int_fits_c_long_extract (-(2 ^ 63)) (2 ^ 63 - 1)
def isize_extract : PyObj → PyState → PyResult ℤ × PyState :=
  int_fits_c_long_extract (-(2 ^ 63)) (2 ^ 63 - 1)

/-- `u64` extraction through the explicit 64-bit path. -/
def u64_extract : PyObj → PyState → PyResult ℤ × PyState :=
  int_convert_u64_or_i64_extract PyLong_AsUnsignedLongLong u64_invalid

/-- `usize` extraction: `int_fits_larger_int!(usize, u64)`. -/
def usize_extract : PyObj → PyState → PyResult ℤ × PyState :=
  int_fits_larger_int_extract u64_extract 0 (2 ^ 64 - 1)

/-! ## Floating-point model

The module treats doubles opaquely: it stores them, reads them back,
compares with the sentinel `-1.0`, and casts `f32 ↔ f64`.  Every finite
IEEE double is a rational, so doubles are modelled by their exact rational
value.  The only lossy operation, the Rust `as f32` narrowing cast, is
modelled by genuine round-to-nearest-even to the binary32 format; the
overflow corner where IEEE produces an infinity is clamped to the largest
finite binary32 value, since `ℚ` has no infinities (no claim below
exercises that corner). -/

/-- Absolute value on `ℚ` by cases (kernel-friendly). -/
def ratAbs (q : ℚ) : ℚ := if q < 0 then -q else q

/-- Fuel-driven base-2 logarithm helper (structural recursion, so that the
kernel can evaluate it). -/
def natLog2Aux : ℕ → ℕ → ℕ
  | 0, _ => 0
  | fuel + 1, n => if n ≤ 1 then 0 else natLog2Aux fuel (n / 2) + 1

/-- `⌊log₂ n⌋` for `n ≥ 1` (and `0` at `0`). -/
def natLog2 (n : ℕ) : ℕ := natLog2Aux n n

/-- `⌊log₂ q⌋` for a positive rational. -/
def ratLog2 (q : ℚ) : ℤ :=
  if 1 ≤ q then (natLog2 (ratFloor q).toNat : ℤ)
  else
    let n := q.num
    let d := (q.den : ℤ)
    let k := natLog2 ((d / n).toNat)
    if d = n * 2 ^ k then -(k : ℤ) else -(k : ℤ) - 1

/-- Nearest integer to the fraction `a / b` (for `b > 0`), ties going to the
even integer: the IEEE rounding direction. -/
def roundHalfEvenInt (a b : ℤ) : ℤ :=
  let f := a / b
  let twiceRem := 2 * (a - f * b)
  if twiceRem < b then f
  else if b < twiceRem then f + 1
  else if f % 2 = 0 then f else f + 1

/-- `m * 2 ^ k` as a rational, for an integer exponent `k`. -/
def mulPow2 (m k : ℤ) : ℚ :=
  if 0 ≤ k then Rat.divInt (m * 2 ^ k.toNat) 1 else Rat.divInt m (2 ^ (-k).toNat)

/-- The largest finite binary32 value, `(2^24 - 1) * 2^104`. -/
def f32MaxVal : ℚ := Rat.divInt (2 ^ 128 - 2 ^ 104) 1

/-- Round a rational to the binary32 (single-precision) format:
round-to-nearest, ties to even, with subnormal handling below `2^(-126)`
and clamping to the largest finite value where IEEE overflows to
infinity.  The unit in the last place for a value of magnitude in
`[2^e, 2^(e+1))` is `2^(e-23)` down to the subnormal floor `2^(-149)`;
the value scaled by the inverse ulp is rounded to an integer and scaled
back. -/
def roundF32 (q : ℚ) : ℚ :=
  if q = 0 then 0
  else
    let e := ratLog2 (ratAbs q)
    let u : ℤ := if e - 23 ≤ -149 then -149 else e - 23
    let a := if 0 ≤ u then q.num else q.num * 2 ^ (-u).toNat
    let b := if 0 ≤ u then (q.den : ℤ) * 2 ^ u.toNat else (q.den : ℤ)
    let r := mulPow2 (roundHalfEvenInt a b) u
    if f32MaxVal < r then f32MaxVal
    else if r < -f32MaxVal then -f32MaxVal
    else r

/-- The Rust `as f64` widening cast on an `f32` value: exact (every
binary32 value is a binary64 value). -/
def f32_to_f64 (v : ℚ) : ℚ := v

/-- The Rust `as f32` narrowing cast on an `f64` value: IEEE
round-to-nearest-even to binary32, never range-checked and never failing. -/
def f64_as_f32 (q : ℚ) : ℚ := roundF32 q

/-- A rational is representable as a binary32 (`f32`) value exactly when
the narrowing cast fixes it. -/
def IsF32 (q : ℚ) : Prop := f64_as_f32 q = q

instance (q : ℚ) : Decidable (IsF32 q) :=
  inferInstanceAs (Decidable (f64_as_f32 q = q))

/-- `PyFloat::new(py, val)`:
`PyPtr::from_owned_ptr_or_panic(ffi::PyFloat_FromDouble(val))`. -/
def PyFloat_new (q : ℚ) : PyObj :=
  from_owned_ptr_or_panic (PyFloat_FromDouble q)

/-- `PyFloat::value(&self)`: `unsafe { ffi::PyFloat_AsDouble(self.as_ptr()) }`,
the raw accessor applied to a float object, with no sentinel or error-state
check of any kind. -/
def PyFloat_value (v : ℚ) (s : PyState) : ℚ × PyState :=
  PyFloat_AsDouble (.float v) s

/-- `ToPyObject for f64`: `PyFloat::new(py, *self).into_object()`
(`into_object` transfers ownership without touching the refcount). -/
def f64_to_object (q : ℚ) : PyObj := PyFloat_new q

/-- `pyobject_extract!(obj to f64)`: read a double, propagate the fetched
error when the read value is the sentinel `-1.0` AND an error is pending,
otherwise return the value. -/
def f64_extract (obj : PyObj) (s : PyState) : PyResult ℚ × PyState :=
  let p := PyFloat_AsDouble obj s
  if p.1 = -1 ∧ PyErr_occurred p.2 = true then
    let f := PyErr_fetch p.2
    (.err f.1, f.2)
  else
    (.ok p.1, p.2)

/-- `ToPyObject for f32`: `PyFloat::new(py, *self as f64).into_object()`. -/
def f32_to_object (v : ℚ) : PyObj := PyFloat_new (f32_to_f64 v)

/-- `pyobject_extract!(obj to f32)`: `Ok(try!(obj.extract::<f64>()) as f32)` —
the `f64` extraction followed by the plain narrowing cast, with no range
check of its own. -/
def f32_extract (obj : PyObj) (s : PyState) : PyResult ℚ × PyState :=
  match f64_extract obj s with
  | (.ok v, s1) => (.ok (f64_as_f32 v), s1)
  | (.err e, s1) => (.err e, s1)

/-! ## Helper lemmas -/

theorem wrapS64_id (v : ℤ) (h1 : cLongMin ≤ v) (h2 : v ≤ cLongMax) :
    wrapS64 v = v := by
  have h1' : -(2 ^ 63) ≤ v := h1
  have h2' : v ≤ 2 ^ 63 - 1 := h2
  unfold wrapS64
  omega

theorem wrapU64_id (v : ℤ) (h1 : 0 ≤ v) (h2 : v ≤ 2 ^ 64 - 1) :
    wrapU64 v = v := by
  unfold wrapU64
  omega

theorem PyErr_occurred_none (s : PyState) (hs : s.pending = none) :
    PyErr_occurred s = false := by
  unfold PyErr_occurred
  rw [hs]
  rfl

/-- Round trip through the `int_fits_c_long!` strategy, for any target range
contained in the `c_long` range. -/
theorem int_fits_c_long_roundtrip (lo hi v : ℤ) (s : PyState)
    (hlo : cLongMin ≤ lo) (hhi : hi ≤ cLongMax)
    (h1 : lo ≤ v) (h2 : v ≤ hi) (hs : s.pending = none) :
    int_fits_c_long_extract lo hi (int_fits_c_long_to_object v) s = (.ok v, s) := by
  have hcl : cLongMin ≤ v := le_trans hlo h1
  have hcu : v ≤ cLongMax := le_trans h2 hhi
  have hw : wrapS64 v = v := wrapS64_id v hcl hcu
  have hobj : int_fits_c_long_to_object v = PyObj.long v := by
    simp only [int_fits_c_long_to_object, PyLong_FromLong, from_owned_ptr_or_panic, hw]
  rw [hobj]
  simp [int_fits_c_long_extract, PyLong_AsLong, PyErr_occurred, num_traits_cast,
    hs, hcl, hcu, h1, h2]

/-- Round trip through the `int_convert_u64_or_i64!` strategy at `u64`. -/
theorem u64_roundtrip (v : ℤ) (s : PyState)
    (h1 : 0 ≤ v) (h2 : v ≤ 2 ^ 64 - 1) (hs : s.pending = none) :
    u64_extract (u64_to_object v) s = (.ok v, s) := by
  have hw : wrapU64 v = v := wrapU64_id v h1 h2
  have hobj : u64_to_object v = PyObj.long v := by
    simp only [u64_to_object, int_convert_u64_or_i64_to_object,
      PyLong_FromUnsignedLongLong, from_owned_ptr_or_panic, hw]
  rw [hobj]
  have h2' : v < 18446744073709551616 := by omega
  simp [u64_extract, int_convert_u64_or_i64_extract, PyLong_Check,
    PyLong_AsUnsignedLongLong, err_if_invalid_value, PyErr_occurred, hs, h1, h2']

/-- Round trip through the `int_fits_larger_int!` strategy at `usize`. -/
theorem usize_roundtrip (v : ℤ) (s : PyState)
    (h1 : 0 ≤ v) (h2 : v ≤ 2 ^ 64 - 1) (hs : s.pending = none) :
    usize_extract (usize_to_object v) s = (.ok v, s) := by
  have hw : wrapU64 v = v := wrapU64_id v h1 h2
  unfold usize_extract usize_to_object
  rw [hw]
  have h2' : v ≤ 18446744073709551615 := by omega
  simp [int_fits_larger_int_extract, u64_roundtrip v s h1 h2 hs, num_traits_cast, h1, h2']

/-- Round trip of `f64` through `PyFloat`. -/
theorem f64_roundtrip (q : ℚ) (s : PyState) (hs : s.pending = none) :
    f64_extract (f64_to_object q) s = (.ok q, s) := by
  simp [f64_to_object, PyFloat_new, PyFloat_FromDouble, from_owned_ptr_or_panic,
    f64_extract, PyFloat_AsDouble, PyErr_occurred, hs]

/-- Round trip of `f32` through the `f64` path, for binary32-representable
values. -/
theorem f32_roundtrip (q : ℚ) (s : PyState) (hq : IsF32 q) (hs : s.pending = none) :
    f32_extract (f32_to_object q) s = (.ok q, s) := by
  have h64 : f64_extract (PyFloat_new q) s = (.ok q, s) := f64_roundtrip q s hs
  have hq' : f64_as_f32 q = q := hq
  simp only [f32_extract, f32_to_object, f32_to_f64, h64, hq']

/-! ## Claim theorems -/

/-- C1: for every supported native numeric type (i8, u8, i16, u16, i32, u32,
i64, u64, isize, usize, f32, f64) and every value representable in that
type, converting the value to a foreign object with `to_object` and
extracting it back as the same type yields exactly that value (under the
error-state discipline: no foreign error is pending when the operation
starts). -/
theorem C1_numeric_roundtrip :
    (∀ (v : ℤ) (s : PyState), -(2 ^ 7) ≤ v → v ≤ 2 ^ 7 - 1 → s.pending = none →
      i8_extract (i8_to_object v) s = (.ok v, s)) ∧
    (∀ (v : ℤ) (s : PyState), 0 ≤ v → v ≤ 2 ^ 8 - 1 → s.pending = none →
      u8_extract (u8_to_object v) s = (.ok v, s)) ∧
    (∀ (v : ℤ) (s : PyState), -(2 ^ 15) ≤ v → v ≤ 2 ^ 15 - 1 → s.pending = none →
      i16_extract (i16_to_object v) s = (.ok v, s)) ∧
    (∀ (v : ℤ) (s : PyState), 0 ≤ v → v ≤ 2 ^ 16 - 1 → s.pending = none →
      u16_extract (u16_to_object v) s = (.ok v, s)) ∧
    (∀ (v : ℤ) (s : PyState), -(2 ^ 31) ≤ v → v ≤ 2 ^ 31 - 1 → s.pending = none →
      i32_extract (i32_to_object v) s = (.ok v, s)) ∧
    (∀ (v : ℤ) (s : PyState), 0 ≤ v → v ≤ 2 ^ 32 - 1 → s.pending = none →
      u32_extract (u32_to_object v) s = (.ok v, s)) ∧
    (∀ (v : ℤ) (s : PyState), -(2 ^ 63) ≤ v → v ≤ 2 ^ 63 - 1 → s.pending = none →
      i64_extract (i64_to_object v) s = (.ok v, s)) ∧
    (∀ (v : ℤ) (s : PyState), -(2 ^ 63) ≤ v → v ≤ 2 ^ 63 - 1 → s.pending = none →
      isize_extract (isize_to_object v) s = (.ok v, s)) ∧
    (∀ (v : ℤ) (s : PyState), 0 ≤ v → v ≤ 2 ^ 64 - 1 → s.pending = none →
      usize_extract (usize_to_object v) s = (.ok v, s)) ∧
    (∀ (v : ℤ) (s : PyState), 0 ≤ v → v ≤ 2 ^ 64 - 1 → s.pending = none →
      u64_extract (u64_to_object v) s = (.ok v, s)) ∧
    (∀ (q : ℚ) (s : PyState), s.pending = none →
      f64_extract (f64_to_object q) s = (.ok q, s)) ∧
    (∀ (q : ℚ) (s : PyState), IsF32 q → s.pending = none →
      f32_extract (f32_to_object q) s = (.ok q, s)) := by
  refine ⟨?_, ?_, ?_, ?_, ?_, ?_, ?_, ?_, ?_, ?_, ?_, ?_⟩
  · exact fun v s h1 h2 hs =>
      int_fits_c_long_roundtrip (-(2 ^ 7)) (2 ^ 7 - 1) v s (by decide) (by decide) h1 h2 hs
  · exact fun v s h1 h2 hs =>
      int_fits_c_long_roundtrip 0 (2 ^ 8 - 1) v s (by decide) (by decide) h1 h2 hs
  · exact fun v s h1 h2 hs =>
      int_fits_c_long_roundtrip (-(2 ^ 15)) (2 ^ 15 - 1) v s (by decide) (by decide) h1 h2 hs
  · exact fun v s h1 h2 hs =>
      int_fits_c_long_roundtrip 0 (2 ^ 16 - 1) v s (by decide) (by decide) h1 h2 hs
  · exact fun v s h1 h2 hs =>
      int_fits_c_long_roundtrip (-(2 ^ 31)) (2 ^ 31 - 1) v s (by decide) (by decide) h1 h2 hs
  · exact fun v s h1 h2 hs =>
      int_fits_c_long_roundtrip 0 (2 ^ 32 - 1) v s (by decide) (by decide) h1 h2 hs
  · exact fun v s h1 h2 hs =>
      int_fits_c_long_roundtrip (-(2 ^ 63)) (2 ^ 63 - 1) v s (by decide) (by decide) h1 h2 hs
  · exact fun v s h1 h2 hs =>
      int_fits_c_long_roundtrip (-(2 ^ 63)) (2 ^ 63 - 1) v s (by decide) (by decide) h1 h2 hs
  · exact fun v s h1 h2 hs => usize_roundtrip v s h1 h2 hs
  · exact fun v s h1 h2 hs => u64_roundtrip v s h1 h2 hs
  · exact fun q s hs => f64_roundtrip q s hs
  · exact fun q s hq hs => f32_roundtrip q s hq hs

/-- Witness for C1 at concrete representable values of each type. -/
theorem C1_numeric_roundtrip_witness :
    i8_extract (i8_to_object 123) PyState.clean = (.ok 123, PyState.clean) ∧
    u8_extract (u8_to_object 200) PyState.clean = (.ok 200, PyState.clean) ∧
    i16_extract (i16_to_object (-12345)) PyState.clean = (.ok (-12345), PyState.clean) ∧
    u16_extract (u16_to_object 60000) PyState.clean = (.ok 60000, PyState.clean) ∧
    i32_extract (i32_to_object (-2000000000)) PyState.clean = (.ok (-2000000000), PyState.clean) ∧
    u32_extract (u32_to_object 4000000000) PyState.clean = (.ok 4000000000, PyState.clean) ∧
    i64_extract (i64_to_object (-9000000000000000000)) PyState.clean
      = (.ok (-9000000000000000000), PyState.clean) ∧
    isize_extract (isize_to_object 123) PyState.clean = (.ok 123, PyState.clean) ∧
    usize_extract (usize_to_object 18446744073709551615) PyState.clean
      = (.ok 18446744073709551615, PyState.clean) ∧
    u64_extract (u64_to_object 18446744073709551615) PyState.clean
      = (.ok 18446744073709551615, PyState.clean) ∧
    f64_extract (f64_to_object (Rat.divInt (-7) 4)) PyState.clean
      = (.ok (Rat.divInt (-7) 4), PyState.clean) ∧
    f32_extract (f32_to_object 123) PyState.clean = (.ok 123, PyState.clean) := by
  have h := C1_numeric_roundtrip
  exact ⟨h.1 123 PyState.clean (by decide) (by decide) rfl,
    h.2.1 200 PyState.clean (by decide) (by decide) rfl,
    h.2.2.1 (-12345) PyState.clean (by decide) (by decide) rfl,
    h.2.2.2.1 60000 PyState.clean (by decide) (by decide) rfl,
    h.2.2.2.2.1 (-2000000000) PyState.clean (by decide) (by decide) rfl,
    h.2.2.2.2.2.1 4000000000 PyState.clean (by decide) (by decide) rfl,
    h.2.2.2.2.2.2.1 (-9000000000000000000) PyState.clean (by decide) (by decide) rfl,
    h.2.2.2.2.2.2.2.1 123 PyState.clean (by decide) (by decide) rfl,
    h.2.2.2.2.2.2.2.2.1 18446744073709551615 PyState.clean (by decide) (by decide) rfl,
    h.2.2.2.2.2.2.2.2.2.1 18446744073709551615 PyState.clean (by decide) (by decide) rfl,
    h.2.2.2.2.2.2.2.2.2.2.1 (Rat.divInt (-7) 4) PyState.clean rfl,
    h.2.2.2.2.2.2.2.2.2.2.2 123 PyState.clean (by decide) rfl⟩

/-! ## Spec-side reference definitions (for refinement claims) -/

/-- Strategy 1 of the specification (fits native long), written from the
spec's words: read the foreign value as the platform integer, check the
ambiguous-sentinel-plus-pending-error pattern (value equals the sentinel
used to signal failure AND the error state is set, then propagate the
fetched error), then attempt a range-checked narrowing cast to the target
native width; failure to narrow signals `OverflowError`. -/
def spec_long_extract (lo hi : ℤ) (obj : PyObj) (s : PyState) :
    PyResult ℤ × PyState :=
  let p := PyLong_AsLong obj s
  if p.1 = -1 ∧ PyErr_occurred p.2 = true then
    let f := PyErr_fetch p.2
    (.err f.1, f.2)
  else if lo ≤ p.1 ∧ p.1 ≤ hi then
    (.ok p.1, p.2)
  else
    (.err PyExc.overflowError, p.2)

/-- The sentinel-plus-error check as the spec words it: propagate the
fetched error exactly when the accessor's result equals the failure
sentinel AND the error state is set; otherwise the value is legitimate. -/
def spec_sentinel_check (invalid : ℤ) (p : ℤ × PyState) :
    PyResult ℤ × PyState :=
  if p.1 = invalid ∧ PyErr_occurred p.2 = true then
    let f := PyErr_fetch p.2
    (.err f.1, f.2)
  else
    (.ok p.1, p.2)

/-- Strategy 3 of the specification (explicit 64-bit path), written from
the spec's words: if the foreign handle is already an integer object,
extract directly with the sentinel-plus-error check; otherwise first
coerce the foreign object to an integer via the generic numeric-coercion
call, propagating the fetched foreign error when that coercion returns
null, and only then extract with the sentinel-plus-error check. -/
def spec_64bit_extract (pylong_as : PyObj → PyState → ℤ × PyState)
    (invalid : ℤ) (obj : PyObj) (s : PyState) : PyResult ℤ × PyState :=
  if PyLong_Check obj = true then
    spec_sentinel_check invalid (pylong_as obj s)
  else
    match PyNumber_Long obj s with
    | (none, s1) =>
        let f := PyErr_fetch s1
        (.err f.1, f.2)
    | (some num, s1) => spec_sentinel_check invalid (pylong_as num s1)

/-! ## Truncation bound lemmas -/

theorem ratFloor_eq (q : ℚ) : ratFloor q = ⌊q⌋ := Rat.floor_def.symm

theorem ratCeil_eq (q : ℚ) : ratCeil q = ⌈q⌉ := by
  rw [ratCeil, ratFloor_eq, Int.floor_neg, neg_neg]

theorem ratTrunc_le_of_le (q : ℚ) (hi : ℤ) (h : q ≤ (hi : ℚ)) :
    ratTrunc q ≤ hi := by
  unfold ratTrunc
  split
  · rw [ratFloor_eq]
    have h2 := Int.floor_mono h
    rwa [Int.floor_intCast] at h2
  · rw [ratCeil_eq]
    have h2 := Int.ceil_mono h
    rwa [Int.ceil_intCast] at h2

theorem le_ratTrunc_of_le (q : ℚ) (lo : ℤ) (h : (lo : ℚ) ≤ q) :
    lo ≤ ratTrunc q := by
  unfold ratTrunc
  split
  · rw [ratFloor_eq]
    have h2 := Int.floor_mono h
    rwa [Int.floor_intCast] at h2
  · rw [ratCeil_eq]
    have h2 := Int.ceil_mono h
    rwa [Int.ceil_intCast] at h2

/-- C2: the platform-long extraction path propagates the fetched foreign
error if and only if the raw value read equals the failure sentinel `-1`
AND the thread-local error state is pending; a sentinel value with no
pending error is kept as a legitimate value, the range-checked narrowing
cast is attempted only after this disambiguation, and a failed narrowing
yields `OverflowError` — i.e. the implementation coincides with the
specification's description of strategy 1, and `err_if_invalid_value`
coincides with the specification's sentinel-plus-error rule. -/
theorem C2_long_path_error_discipline :
    (∀ (lo hi : ℤ) (obj : PyObj) (s : PyState),
      int_fits_c_long_extract lo hi obj s = spec_long_extract lo hi obj s) ∧
    (∀ (invalid actual : ℤ) (s : PyState),
      err_if_invalid_value invalid actual s = spec_sentinel_check invalid (actual, s)) := by
  constructor
  · intro lo hi obj s
    simp only [int_fits_c_long_extract, spec_long_extract, num_traits_cast, overflow_error]
    split
    · rfl
    · by_cases hc : lo ≤ (PyLong_AsLong obj s).1 ∧ (PyLong_AsLong obj s).1 ≤ hi
      · simp [hc]
      · simp [hc]
  · intro invalid actual s
    rfl

/-- C3: the ownership-baseline claim fails on the code: a 64-bit (`u64`)
extraction from a non-integer numeric object coerces through
`PyNumber_Long`, which hands the code a new owned reference to an
intermediate integer object, and the code never releases it — after the
extraction completes the ledger holds one unreleased reference, so that
object's refcount does not return to its pre-operation baseline. -/
theorem C3_intermediate_reference_leaked :
    u64_extract (PyObj.float 123) PyState.clean
      = (.ok 123, { pending := none, unreleasedNewRefs := 1 }) ∧
    ({ pending := none, unreleasedNewRefs := 1 } : PyState).unreleasedNewRefs
      ≠ PyState.clean.unreleasedNewRefs := by
  exact ⟨by decide, by decide⟩

/-- C4: the 64-bit extraction path first tests whether the handle is
already an integer object; if so it extracts directly with the
sentinel-plus-error check; otherwise it coerces via the generic
numeric-coercion call, propagating the fetched foreign error when the
coercion returns null, and only then extracts with the sentinel check.
The `u64` implementation is exactly this macro instantiated at the
unsigned 64-bit accessor; a foreign float is accepted through coercion
and a non-numeric object propagates the fetched `TypeError`. -/
theorem C4_explicit_64bit_path :
    (∀ (pylong_as : PyObj → PyState → ℤ × PyState) (invalid : ℤ)
        (obj : PyObj) (s : PyState),
      int_convert_u64_or_i64_extract pylong_as invalid obj s
        = spec_64bit_extract pylong_as invalid obj s) ∧
    u64_extract = int_convert_u64_or_i64_extract PyLong_AsUnsignedLongLong u64_invalid ∧
    u64_extract (PyObj.float (Rat.divInt 5 2)) PyState.clean
      = (.ok 2, { pending := none, unreleasedNewRefs := 1 }) ∧
    u64_extract PyObj.other PyState.clean = (.err PyExc.typeError, PyState.clean) := by
  refine ⟨?_, rfl, by decide, by decide⟩
  intro pylong_as invalid obj s
  rfl

/-- C5: `u32::MAX` converted to a foreign object extracts back as `u32`
unchanged, as `u64` with the same numeric value, and as `i32` it fails
with `OverflowError`. -/
theorem C5_u32_max_boundary :
    u32_extract (u32_to_object 4294967295) PyState.clean
      = (.ok 4294967295, PyState.clean) ∧
    u64_extract (u32_to_object 4294967295) PyState.clean
      = (.ok 4294967295, PyState.clean) ∧
    i32_extract (u32_to_object 4294967295) PyState.clean
      = (.err PyExc.overflowError, PyState.clean) := by
  exact ⟨by decide, by decide, by decide⟩

/-- C6: `i64::MIN` converted to a foreign object extracts back as `i64`
unchanged, while extracting it as `i32` and as `u64` both fail with
`OverflowError`. -/
theorem C6_i64_min_boundary :
    i64_extract (i64_to_object (-9223372036854775808)) PyState.clean
      = (.ok (-9223372036854775808), PyState.clean) ∧
    i32_extract (i64_to_object (-9223372036854775808)) PyState.clean
      = (.err PyExc.overflowError, PyState.clean) ∧
    u64_extract (i64_to_object (-9223372036854775808)) PyState.clean
      = (.err PyExc.overflowError, PyState.clean) := by
  exact ⟨by decide, by decide, by decide⟩

/-- C7: `to_object` is infallible for every supported native numeric type:
the foreign constructors are total (never null) on these types' values,
so the panic branch of `from_owned_ptr_or_panic` is unreachable and every
conversion produces an owned reference to a numeric foreign object. -/
theorem C7_to_object_infallible :
    (∀ l : ℤ, (PyLong_FromLong l).isSome = true) ∧
    (∀ u : ℤ, (PyLong_FromUnsignedLongLong u).isSome = true) ∧
    (∀ q : ℚ, (PyFloat_FromDouble q).isSome = true) ∧
    (∀ v : ℤ, ∃ n, int_fits_c_long_to_object v = PyObj.long n) ∧
    (∀ v : ℤ, ∃ n, u64_to_object v = PyObj.long n) ∧
    (∀ v : ℤ, ∃ n, usize_to_object v = PyObj.long n) ∧
    (∀ q : ℚ, f64_to_object q = PyObj.float q) ∧
    (∀ q : ℚ, f32_to_object q = PyObj.float (f32_to_f64 q)) := by
  exact ⟨fun l => rfl, fun u => rfl, fun q => rfl,
    fun v => ⟨wrapS64 (wrapS64 v), rfl⟩,
    fun v => ⟨wrapU64 v, rfl⟩,
    fun v => ⟨wrapU64 (wrapU64 v), rfl⟩,
    fun q => rfl, fun q => rfl⟩

set_option maxRecDepth 40000 in
/-- C8: `f32` conversion goes through the `f64` path in both directions:
`to_object` widens the value to `f64` exactly, extraction performs the
`f64` extraction and then applies the plain narrowing cast (so it errs
exactly when the `f64` extraction errs and never produces an
`OverflowError` from the cast: on every float object, whatever its
magnitude, extraction succeeds with the rounded value), and the cast
silently loses precision (`2^25 + 1` comes back as `2^25`). -/
theorem C8_f32_through_f64_path :
    (∀ v : ℚ, f32_to_object v = PyObj.float (f32_to_f64 v) ∧ f32_to_f64 v = v) ∧
    (∀ (obj : PyObj) (s : PyState),
      f32_extract obj s =
        match f64_extract obj s with
        | (.ok v, s1) => (.ok (f64_as_f32 v), s1)
        | (.err e, s1) => (.err e, s1)) ∧
    (∀ q : ℚ, f32_extract (.float q) PyState.clean
      = (.ok (f64_as_f32 q), PyState.clean)) ∧
    f32_extract (.float 33554433) PyState.clean = (.ok 33554432, PyState.clean) := by
  refine ⟨fun v => ⟨rfl, rfl⟩, fun obj s => rfl, ?_, by decide⟩
  intro q
  simp [f32_extract, f64_extract, PyFloat_AsDouble, PyErr_occurred, PyState.clean]

/-- C10: `PyFloat::value` returns the raw double read by the foreign
accessor with no sentinel or error-state check whatsoever: for every float
object and every state it returns the accessor's value and leaves the
state untouched, including the value `-1.0` while a foreign error is
pending, which it neither propagates nor clears. -/
theorem C10_pyfloat_value_unchecked :
    (∀ (q : ℚ) (s : PyState), PyFloat_value q s = (q, s)) ∧
    (∀ e : PyExc, PyFloat_value (-1) ⟨some e, 0⟩ = (-1, ⟨some e, 0⟩)) := by
  exact ⟨fun q s => rfl, fun e => rfl⟩

/-- C9 counterexample: the claim as stated quantifies over float values `v`
with `|v|` within the target type's representable range, but for the
unsigned target `u32` the float `-5.0` has `|-5.0| = 5 ≤ u32::MAX` while
extraction does not succeed with a truncated value: the range-checked
narrowing cast rejects `-5` and the extraction fails with
`OverflowError`. -/
theorem C9_abs_range_counterexample :
    ratAbs (-5) ≤ ((4294967295 : ℤ) : ℚ) ∧
    u32_extract (PyObj.float (-5)) PyState.clean
      = (.err PyExc.overflowError, PyState.clean) := by
  exact ⟨by decide, by decide⟩

/-- C9 (amended): for every foreign float object whose value `v` lies
within the target type's own range (`lo ≤ v ≤ hi` for a platform-long-path
type of range `[lo, hi]`), extraction through the platform-long path
succeeds and returns `v` truncated toward zero — the platform-long
accessor implicitly coerces non-integer numeric objects rather than
rejecting them. -/
theorem C9_float_truncation_on_long_path (lo hi : ℤ) (q : ℚ) (s : PyState)
    (hlo : cLongMin ≤ lo) (hhi : hi ≤ cLongMax)
    (h1 : (lo : ℚ) ≤ q) (h2 : q ≤ (hi : ℚ)) (hs : s.pending = none) :
    int_fits_c_long_extract lo hi (PyObj.float q) s = (.ok (ratTrunc q), s) := by
  have hT1 : lo ≤ ratTrunc q := le_ratTrunc_of_le q lo h1
  have hT2 : ratTrunc q ≤ hi := ratTrunc_le_of_le q hi h2
  have hc1 : cLongMin ≤ ratTrunc q := le_trans hlo hT1
  have hc2 : ratTrunc q ≤ cLongMax := le_trans hT2 hhi
  simp [int_fits_c_long_extract, PyLong_AsLong, PyErr_occurred, num_traits_cast,
    hs, hc1, hc2, hT1, hT2]

/-- Witness for the amended C9: the float `123.5` extracted as `i32` and as
`u32` yields the truncation `123`. -/
theorem C9_float_truncation_witness :
    i32_extract (PyObj.float (Rat.divInt 247 2)) PyState.clean
      = (.ok 123, PyState.clean) ∧
    u32_extract (PyObj.float (Rat.divInt 247 2)) PyState.clean
      = (.ok 123, PyState.clean) := by
  have ht : ratTrunc (Rat.divInt 247 2) = 123 := by decide
  constructor
  · have h := C9_float_truncation_on_long_path (-(2 ^ 31)) (2 ^ 31 - 1)
      (Rat.divInt 247 2) PyState.clean (by decide) (by decide) (by decide) (by decide) rfl
    rw [ht] at h
    exact h
  · have h := C9_float_truncation_on_long_path 0 (2 ^ 32 - 1)
      (Rat.divInt 247 2) PyState.clean (by decide) (by decide) (by decide) (by decide) rfl
    rw [ht] at h
    exact h
